import Mathlib

/-
  Verification of the phidata CLI lifecycle dispatcher
  (src/phi/cli/operator.py) and the conversation-event side channel
  (src/phi/api/conversation.py), as a shallow embedding.

  Backend adapters (deploy_docker_config, shutdown_k8s_config, ...) and
  filter_and_prep_configs are external collaborators, modelled as oracles.
  An adapter call either returns normally (oracle yields true) or raises an
  exception (oracle yields false); the embedding makes exception propagation
  explicit through the raised flag.
-/

namespace Phidata

/-- The three registered backend kinds the dispatcher tests for:
DockerConfig, K8sConfig, AwsConfig. -/
inductive Kind
  | docker
  | k8s
  | aws
deriving DecidableEq, Repr

/-- A config in the filtered sequence. The dispatcher only observes a config
through three independent isinstance tests (DockerConfig, K8sConfig,
AwsConfig) and its class name in a debug line; nothing forbids a config from
satisfying several of the tests, so each test is a separate field. -/
structure InfraConfig where
  id : Nat
  className : String
  isDocker : Bool
  isK8s : Bool
  isAws : Bool
deriving DecidableEq, Repr

/-- Observable effects emitted by the functions of operator.py:
console output, logger calls, workspace loading, setting local environment
variables, and the invocation of a backend adapter function on a config. -/
inductive OutputEvent
  | printHeading (s : String)
  | logDebug (s : String)
  | logError (s : String)
  | printInfo (s : String)
  | printSubheading (s : String)
  | loadWorkspaceConfig
  | setLocalEnv
  | adapterCall (fn : String) (cfg : InfraConfig)
deriving DecidableEq, Repr

/-- State threaded through one loop iteration: completed-counter increments
made so far in this iteration, events emitted, and whether an exception has
been raised (and is propagating). -/
structure StepOut where
  dCompleted : Nat
  events : List OutputEvent
  raised : Bool
deriving DecidableEq, Repr

/-- Behaviour oracle for one operation's three backend adapter functions:
true means the call returns normally, false means it raises. -/
def AdapterOracle : Type := Kind → InfraConfig → Bool

/-- Docker branch of one start_resources loop iteration
(operator.py lines 207-218): if the config is a DockerConfig, call
deploy_docker_config; on normal return increment the counter; a raise
aborts the rest of the iteration (no try/except in the source). -/
def deployDockerBranch (adapter : AdapterOracle) (cfg : InfraConfig)
    (st : StepOut) : StepOut :=
  if st.raised then st
  else if cfg.isDocker then
    let ev := st.events ++ [OutputEvent.adapterCall "deploy_docker_config" cfg]
    if adapter Kind.docker cfg then
      { dCompleted := st.dCompleted + 1, events := ev, raised := false }
    else
      { dCompleted := st.dCompleted, events := ev, raised := true }
  else st

/-- K8s branch of one start_resources loop iteration
(operator.py lines 219-230). -/
def deployK8sBranch (adapter : AdapterOracle) (cfg : InfraConfig)
    (st : StepOut) : StepOut :=
  if st.raised then st
  else if cfg.isK8s then
    let ev := st.events ++ [OutputEvent.adapterCall "deploy_k8s_config" cfg]
    if adapter Kind.k8s cfg then
      { dCompleted := st.dCompleted + 1, events := ev, raised := false }
    else
      { dCompleted := st.dCompleted, events := ev, raised := true }
  else st

/-- AWS branch of one start_resources loop iteration
(operator.py lines 231-242). -/
def deployAwsBranch (adapter : AdapterOracle) (cfg : InfraConfig)
    (st : StepOut) : StepOut :=
  if st.raised then st
  else if cfg.isAws then
    let ev := st.events ++ [OutputEvent.adapterCall "deploy_aws_config" cfg]
    if adapter Kind.aws cfg then
      { dCompleted := st.dCompleted + 1, events := ev, raised := false }
    else
      { dCompleted := st.dCompleted, events := ev, raised := true }
  else st

/-- One iteration of the start_resources loop (operator.py lines 205-244):
debug line, the three independent isinstance branches in source order, then
a blank separator line (skipped when an exception is propagating). -/
def deployStep (adapter : AdapterOracle) (cfg : InfraConfig) : StepOut :=
  let st0 : StepOut :=
    ⟨0, [OutputEvent.logDebug ("Deploying " ++ cfg.className)], false⟩
  let st3 := deployAwsBranch adapter cfg
    (deployK8sBranch adapter cfg (deployDockerBranch adapter cfg st0))
  if st3.raised then st3
  else { st3 with events := st3.events ++ [OutputEvent.printInfo ""] }

/-- The start_resources dispatch loop over the filtered sequence: strictly
sequential; an uncaught exception in one iteration aborts the loop. -/
def deployLoop (adapter : AdapterOracle) : List InfraConfig → StepOut
  | [] => ⟨0, [], false⟩
  | cfg :: rest =>
    let s := deployStep adapter cfg
    if s.raised then s
    else
      let r := deployLoop adapter rest
      ⟨s.dCompleted + r.dCompleted, s.events ++ r.events, r.raised⟩

/-- Docker branch of one stop_resources loop iteration
(operator.py lines 300-311): shutdown_docker_config. -/
def shutdownDockerBranch (adapter : AdapterOracle) (cfg : InfraConfig)
    (st : StepOut) : StepOut :=
  if st.raised then st
  else if cfg.isDocker then
    let ev := st.events ++ [OutputEvent.adapterCall "shutdown_docker_config" cfg]
    if adapter Kind.docker cfg then
      { dCompleted := st.dCompleted + 1, events := ev, raised := false }
    else
      { dCompleted := st.dCompleted, events := ev, raised := true }
  else st

/-- K8s branch of one stop_resources loop iteration
(operator.py lines 312-323). -/
def shutdownK8sBranch (adapter : AdapterOracle) (cfg : InfraConfig)
    (st : StepOut) : StepOut :=
  if st.raised then st
  else if cfg.isK8s then
    let ev := st.events ++ [OutputEvent.adapterCall "shutdown_k8s_config" cfg]
    if adapter Kind.k8s cfg then
      { dCompleted := st.dCompleted + 1, events := ev, raised := false }
    else
      { dCompleted := st.dCompleted, events := ev, raised := true }
  else st

/-- AWS branch of one stop_resources loop iteration
(operator.py lines 324-335). -/
def shutdownAwsBranch (adapter : AdapterOracle) (cfg : InfraConfig)
    (st : StepOut) : StepOut :=
  if st.raised then st
  else if cfg.isAws then
    let ev := st.events ++ [OutputEvent.adapterCall "shutdown_aws_config" cfg]
    if adapter Kind.aws cfg then
      { dCompleted := st.dCompleted + 1, events := ev, raised := false }
    else
      { dCompleted := st.dCompleted, events := ev, raised := true }
  else st

/-- One iteration of the stop_resources loop (operator.py lines 298-337).
The debug line reads Deploying even here, copied verbatim in the source. -/
def shutdownStep (adapter : AdapterOracle) (cfg : InfraConfig) : StepOut :=
  let st0 : StepOut :=
    ⟨0, [OutputEvent.logDebug ("Deploying " ++ cfg.className)], false⟩
  let st3 := shutdownAwsBranch adapter cfg
    (shutdownK8sBranch adapter cfg (shutdownDockerBranch adapter cfg st0))
  if st3.raised then st3
  else { st3 with events := st3.events ++ [OutputEvent.printInfo ""] }

/-- The stop_resources dispatch loop. -/
def shutdownLoop (adapter : AdapterOracle) : List InfraConfig → StepOut
  | [] => ⟨0, [], false⟩
  | cfg :: rest =>
    let s := shutdownStep adapter cfg
    if s.raised then s
    else
      let r := shutdownLoop adapter rest
      ⟨s.dCompleted + r.dCompleted, s.events ++ r.events, r.raised⟩

/-- Docker branch of one patch_resources loop iteration
(operator.py lines 393-404): patch_docker_config. -/
def patchDockerBranch (adapter : AdapterOracle) (cfg : InfraConfig)
    (st : StepOut) : StepOut :=
  if st.raised then st
  else if cfg.isDocker then
    let ev := st.events ++ [OutputEvent.adapterCall "patch_docker_config" cfg]
    if adapter Kind.docker cfg then
      { dCompleted := st.dCompleted + 1, events := ev, raised := false }
    else
      { dCompleted := st.dCompleted, events := ev, raised := true }
  else st

/-- K8s branch of one patch_resources loop iteration
(operator.py lines 405-416). -/
def patchK8sBranch (adapter : AdapterOracle) (cfg : InfraConfig)
    (st : StepOut) : StepOut :=
  if st.raised then st
  else if cfg.isK8s then
    let ev := st.events ++ [OutputEvent.adapterCall "patch_k8s_config" cfg]
    if adapter Kind.k8s cfg then
      { dCompleted := st.dCompleted + 1, events := ev, raised := false }
    else
      { dCompleted := st.dCompleted, events := ev, raised := true }
  else st

/-- AWS branch of one patch_resources loop iteration
(operator.py lines 417-428). -/
def patchAwsBranch (adapter : AdapterOracle) (cfg : InfraConfig)
    (st : StepOut) : StepOut :=
  if st.raised then st
  else if cfg.isAws then
    let ev := st.events ++ [OutputEvent.adapterCall "patch_aws_config" cfg]
    if adapter Kind.aws cfg then
      { dCompleted := st.dCompleted + 1, events := ev, raised := false }
    else
      { dCompleted := st.dCompleted, events := ev, raised := true }
  else st

/-- One iteration of the patch_resources loop (operator.py lines 391-430).
The debug line reads Deploying here too, copied verbatim in the source. -/
def patchStep (adapter : AdapterOracle) (cfg : InfraConfig) : StepOut :=
  let st0 : StepOut :=
    ⟨0, [OutputEvent.logDebug ("Deploying " ++ cfg.className)], false⟩
  let st3 := patchAwsBranch adapter cfg
    (patchK8sBranch adapter cfg (patchDockerBranch adapter cfg st0))
  if st3.raised then st3
  else { st3 with events := st3.events ++ [OutputEvent.printInfo ""] }

/-- The patch_resources dispatch loop. -/
def patchLoop (adapter : AdapterOracle) : List InfraConfig → StepOut
  | [] => ⟨0, [], false⟩
  | cfg :: rest =>
    let s := patchStep adapter cfg
    if s.raised then s
    else
      let r := patchLoop adapter rest
      ⟨s.dCompleted + r.dCompleted, s.events ++ r.events, r.raised⟩

/-- The optional target selectors of start_resources, stop_resources and
patch_resources (all Optional with default None in the source). -/
structure TargetFilters where
  target_env : Option String
  target_config : Option String
  target_name : Option String
  target_type : Option String
  target_group : Option String
deriving DecidableEq, Repr

/-- Python str() rendering of an Optional string for the debug lines. -/
def optStr : Option String → String
  | none => "None"
  | some s => s

/-- Python str() rendering of an Optional bool for the debug lines. -/
def optBoolStr : Option Bool → String
  | none => "None"
  | some true => "True"
  | some false => "False"

/-- Python truthiness of an Optional bool, as used by the if-not-dry-run
test: None and False are falsy, True is truthy. -/
def truthy : Option Bool → Bool
  | none => false
  | some b => b

/-- The seven logger.debug lines printed at the top of each of the three
dispatch functions. -/
def paramDebugEvents (tf : TargetFilters) (dry_run auto_confirm : Option Bool) :
    List OutputEvent :=
  [OutputEvent.logDebug ("\ttarget_env   : " ++ optStr tf.target_env),
   OutputEvent.logDebug ("\ttarget_config: " ++ optStr tf.target_config),
   OutputEvent.logDebug ("\ttarget_name  : " ++ optStr tf.target_name),
   OutputEvent.logDebug ("\ttarget_type  : " ++ optStr tf.target_type),
   OutputEvent.logDebug ("\ttarget_group : " ++ optStr tf.target_group),
   OutputEvent.logDebug ("\tdry_run      : " ++ optBoolStr dry_run),
   OutputEvent.logDebug ("\tauto_confirm : " ++ optBoolStr auto_confirm)]

/-- Environment of one dispatch call: the resources file path, whether that
file exists, and the behaviour of the external filter_and_prep_configs for
the loaded workspace and the given target selectors, as a function of the
order argument string (the only argument that varies between call sites in
the source). -/
structure DispatchEnv where
  path : String
  fileExists : Bool
  filterPrep : String → List InfraConfig

/-- Result of one dispatch function call: the emitted events, whether an
uncaught exception propagated out of the function, and the
(attempted, completed) pair of the final summary line; counters is none
when the function returned before the loop (missing file) or an adapter
exception propagated, since no summary is produced then. -/
structure RunResult where
  output : List OutputEvent
  raised : Bool
  counters : Option (Nat × Nat)
deriving DecidableEq, Repr

/-- Shallow embedding of start_resources (operator.py lines 161-251). -/
def start_resources (env : DispatchEnv) (adapter : AdapterOracle)
    (tf : TargetFilters) (dry_run auto_confirm : Option Bool) : RunResult :=
  let hdr := OutputEvent.printHeading ("Starting resources in: " ++ env.path)
    :: paramDebugEvents tf dry_run auto_confirm
  if !env.fileExists then
    { output := hdr ++ [OutputEvent.logError ("File does not exist: " ++ env.path)],
      raised := false, counters := none }
  else
    let pre := hdr ++ [OutputEvent.loadWorkspaceConfig, OutputEvent.setLocalEnv]
    let configs := env.filterPrep "create"
    let lr := deployLoop adapter configs
    if lr.raised then
      { output := pre ++ lr.events, raised := true, counters := none }
    else
      let n := configs.length
      let summary := pre ++ lr.events
        ++ [OutputEvent.printInfo ("# Configs deployed: "
              ++ toString lr.dCompleted ++ "/" ++ toString n ++ "\n")]
      let final :=
        if n == lr.dCompleted then
          if truthy dry_run then summary
          else summary ++ [OutputEvent.printSubheading "Workspace deploy success"]
        else summary ++ [OutputEvent.logError "Workspace deploy failed"]
      { output := final, raised := false, counters := some (n, lr.dCompleted) }

/-- Shallow embedding of stop_resources (operator.py lines 254-344).
Note line 293 of the source: the order argument passed to
filter_and_prep_configs is the string create, the same as in
start_resources, not a teardown order. -/
def stop_resources (env : DispatchEnv) (adapter : AdapterOracle)
    (tf : TargetFilters) (dry_run auto_confirm : Option Bool) : RunResult :=
  let hdr := OutputEvent.printHeading ("Stopping resources in: " ++ env.path)
    :: paramDebugEvents tf dry_run auto_confirm
  if !env.fileExists then
    { output := hdr ++ [OutputEvent.logError ("File does not exist: " ++ env.path)],
      raised := false, counters := none }
  else
    let pre := hdr ++ [OutputEvent.loadWorkspaceConfig, OutputEvent.setLocalEnv]
    let configs := env.filterPrep "create"
    let lr := shutdownLoop adapter configs
    if lr.raised then
      { output := pre ++ lr.events, raised := true, counters := none }
    else
      let n := configs.length
      let summary := pre ++ lr.events
        ++ [OutputEvent.printInfo ("# Configs shutdown: "
              ++ toString lr.dCompleted ++ "/" ++ toString n ++ "\n")]
      let final :=
        if n == lr.dCompleted then
          if truthy dry_run then summary
          else summary ++ [OutputEvent.printSubheading "Workspace shutdown success"]
        else summary ++ [OutputEvent.logError "Workspace shutdown failed"]
      { output := final, raised := false, counters := some (n, lr.dCompleted) }

/-- Shallow embedding of patch_resources (operator.py lines 347-437). -/
def patch_resources (env : DispatchEnv) (adapter : AdapterOracle)
    (tf : TargetFilters) (dry_run auto_confirm : Option Bool) : RunResult :=
  let hdr := OutputEvent.printHeading ("Updating resources in: " ++ env.path)
    :: paramDebugEvents tf dry_run auto_confirm
  if !env.fileExists then
    { output := hdr ++ [OutputEvent.logError ("File does not exist: " ++ env.path)],
      raised := false, counters := none }
  else
    let pre := hdr ++ [OutputEvent.loadWorkspaceConfig, OutputEvent.setLocalEnv]
    let configs := env.filterPrep "create"
    let lr := patchLoop adapter configs
    if lr.raised then
      { output := pre ++ lr.events, raised := true, counters := none }
    else
      let n := configs.length
      let summary := pre ++ lr.events
        ++ [OutputEvent.printInfo ("# Configs patched: "
              ++ toString lr.dCompleted ++ "/" ++ toString n ++ "\n")]
      let final :=
        if n == lr.dCompleted then
          if truthy dry_run then summary
          else summary ++ [OutputEvent.printSubheading "Workspace patch success"]
        else summary ++ [OutputEvent.logError "Workspace patch failed"]
      { output := final, raised := false, counters := some (n, lr.dCompleted) }

/-- Modelled from the spec: filter_and_prep_configs is not under src/
(only its callers are). Per the spec, the filter is a pure
selection/ordering over the workspace's declared variants, whose teardown
ordering is the exact reverse of the creation ordering for the same
selection. The selection itself is abstracted: base stands for the
already-selected sequence in creation order, and any order argument other
than create yields the teardown ordering. -/
def specFilterPrep (base : List InfraConfig) : String → List InfraConfig :=
  fun order => if order = "create" then base else base.reverse

/-- Maps each of the nine backend adapter function names of operator.py to
the backend kind it belongs to, forgetting which lifecycle operation it
performs. -/
def fnKind (fn : String) : Option Kind :=
  if fn = "deploy_docker_config" ∨ fn = "shutdown_docker_config"
      ∨ fn = "patch_docker_config" then some Kind.docker
  else if fn = "deploy_k8s_config" ∨ fn = "shutdown_k8s_config"
      ∨ fn = "patch_k8s_config" then some Kind.k8s
  else if fn = "deploy_aws_config" ∨ fn = "shutdown_aws_config"
      ∨ fn = "patch_aws_config" then some Kind.aws
  else none

/-- The sequence of backend adapter invocations in an event trace, each as
the backend kind reached together with the config dispatched to it; the
lifecycle verb of the adapter function name is forgotten. -/
def callSeq (evs : List OutputEvent) : List (Kind × InfraConfig) :=
  evs.filterMap fun e =>
    match e with
    | OutputEvent.adapterCall fn cfg => (fnKind fn).map (fun k => (k, cfg))
    | _ => none

/-- How many of the three registered backend kinds a config is an instance
of. -/
def kindCount (cfg : InfraConfig) : Nat :=
  (if cfg.isDocker then 1 else 0) + (if cfg.isK8s then 1 else 0)
    + (if cfg.isAws then 1 else 0)

/-- The events a dispatch function emits after the summary line: the
success banner when the counts match and the run is not a dry run, nothing
when the counts match on a dry run, and the failure error otherwise. Used
only to state lemmas; the three dispatch functions inline this logic. -/
def reportTail (successBanner failMsg : String) (attempted completed : Nat)
    (dry : Bool) : List OutputEvent :=
  if attempted == completed then
    if dry then []
    else [OutputEvent.printSubheading successBanner]
  else [OutputEvent.logError failMsg]

/-- Classifies the events that can be emitted from inside a dispatch loop:
debug lines, adapter invocations and plain info lines. Headings,
subheadings, errors, workspace loading and environment mutation never occur
inside the loop. -/
def isLoopEvent : OutputEvent → Bool
  | OutputEvent.logDebug _ => true
  | OutputEvent.adapterCall _ _ => true
  | OutputEvent.printInfo _ => true
  | _ => false

/-
  Shallow embedding of src/phi/api/conversation.py.
  The httpx client, the response object, and pydantic validation are
  external collaborators, modelled as an oracle world; every place the
  source can raise is an explicit outcome.
-/

/-- Opaque JSON document returned by r.json(). -/
structure ResponseJson where
  tok : Nat
deriving DecidableEq, Repr

/-- Opaque validated response object (name kept from the source, including
its typo). -/
structure ConversationEventCreateResopnse where
  payload : Nat
deriving DecidableEq, Repr

/-- Outcome of calling r.json() on the HTTP response: it can raise, return
None, or return a JSON document. -/
inductive JsonParse
  | raise
  | null
  | value (j : ResponseJson)
deriving DecidableEq, Repr

/-- The HTTP response as observed by log_conversation_event: whether
invalid_response(r) holds, and what r.json() yields. -/
structure HttpResponse where
  invalid : Bool
  jsonOutcome : JsonParse
deriving DecidableEq, Repr

/-- Outcome of api_client.post: it can raise or return a response. -/
inductive PostOutcome
  | raise
  | ok (r : HttpResponse)
deriving DecidableEq, Repr

/-- Outcome of pydantic model_validate on a JSON document: it can raise or
return a validated response object. -/
inductive ValidateOutcome
  | raise
  | ok (resp : ConversationEventCreateResopnse)
deriving DecidableEq, Repr

/-- Behaviour of the external API collaborators for one
log_conversation_event call. -/
structure ConversationApi where
  post : PostOutcome
  validate : ResponseJson → ValidateOutcome

/-- Result of log_conversation_event: whether an HTTP request was issued
at all, and the returned value. The Lean function is total: every
exception the source can see is caught by its except block, so no raise
propagates to the caller. -/
structure LogConvResult where
  apiCalled : Bool
  result : Option ConversationEventCreateResopnse
deriving DecidableEq, Repr

/-- Shallow embedding of log_conversation_event
(conversation.py lines 46-77). api_enabled stands for
phi_cli_settings.api_enabled. -/
def log_conversation_event (api_enabled : Bool) (api : ConversationApi) :
    LogConvResult :=
  if !api_enabled then ⟨false, none⟩
  else
    match api.post with
    | PostOutcome.raise => ⟨true, none⟩
    | PostOutcome.ok r =>
      if r.invalid then ⟨true, none⟩
      else
        match r.jsonOutcome with
        | JsonParse.raise => ⟨true, none⟩
        | JsonParse.null => ⟨true, none⟩
        | JsonParse.value j =>
          match api.validate j with
          | ValidateOutcome.raise => ⟨true, none⟩
          | ValidateOutcome.ok resp => ⟨true, some resp⟩

/-
  Concrete inputs used by counterexamples and witnesses.
-/

/-- A Docker-only config. -/
def cfgD0 : InfraConfig := ⟨0, "DockerConfig", true, false, false⟩

/-- A second Docker-only config. -/
def cfgD1 : InfraConfig := ⟨1, "DockerConfig", true, false, false⟩

/-- A config whose class is an instance of both DockerConfig and
K8sConfig. -/
def cfgDK : InfraConfig := ⟨2, "DockerK8sConfig", true, true, false⟩

/-- A config of a kind not registered with the dispatcher: it is none of
DockerConfig, K8sConfig, AwsConfig. -/
def cfgU : InfraConfig := ⟨3, "GcpConfig", false, false, false⟩

/-- Adapter oracle where every call returns normally. -/
def aOk : AdapterOracle := fun _ _ => true

/-- Adapter oracle where the call on the config with id 0 raises and every
other call returns normally. -/
def aFail0 : AdapterOracle := fun _ c => decide (c.id ≠ 0)

/-- No target selectors (all default to None). -/
def tf0 : TargetFilters := ⟨none, none, none, none, none⟩

/-- Environment whose filter holds the two Docker configs in creation
order, honouring the order argument as the spec describes. -/
def envPair : DispatchEnv := ⟨"ws/resources.py", true, specFilterPrep [cfgD0, cfgD1]⟩

/-- Environment whose filtered sequence is the single two-kind config. -/
def envDK : DispatchEnv := ⟨"ws/resources.py", true, fun _ => [cfgDK]⟩

/-- Environment whose filtered sequence is empty. -/
def envEmpty : DispatchEnv := ⟨"ws/resources.py", true, fun _ => []⟩

/-- Environment whose resources file does not exist. -/
def envMissing : DispatchEnv := ⟨"missing.py", false, fun _ => []⟩

/-- Environment whose filtered sequence is the single unregistered-kind
config. -/
def envU : DispatchEnv := ⟨"ws/resources.py", true, fun _ => [cfgU]⟩

/-- Conversation API world where the HTTP post raises. -/
def apiPostRaise : ConversationApi :=
  ⟨PostOutcome.raise, fun _ => ValidateOutcome.raise⟩

/-- Conversation API world where every step succeeds. -/
def apiAllOk : ConversationApi :=
  ⟨PostOutcome.ok ⟨false, JsonParse.value ⟨7⟩⟩, fun j => ValidateOutcome.ok ⟨j.tok⟩⟩

/-
  Lemmas about single loop iterations, by exhaustive case analysis over the
  three kind flags and the three adapter outcomes.
-/

lemma deployStep_dCompleted_le (a : AdapterOracle) (cfg : InfraConfig) :
    (deployStep a cfg).dCompleted ≤ kindCount cfg := by
  cases hD : cfg.isDocker <;> cases hK : cfg.isK8s <;> cases hA : cfg.isAws <;>
    cases hd : a Kind.docker cfg <;> cases hk : a Kind.k8s cfg <;>
      cases ha : a Kind.aws cfg <;>
        simp [deployStep, deployDockerBranch, deployK8sBranch, deployAwsBranch,
          kindCount, hD, hK, hA, hd, hk, ha]

lemma shutdownStep_dCompleted_le (a : AdapterOracle) (cfg : InfraConfig) :
    (shutdownStep a cfg).dCompleted ≤ kindCount cfg := by
  cases hD : cfg.isDocker <;> cases hK : cfg.isK8s <;> cases hA : cfg.isAws <;>
    cases hd : a Kind.docker cfg <;> cases hk : a Kind.k8s cfg <;>
      cases ha : a Kind.aws cfg <;>
        simp [shutdownStep, shutdownDockerBranch, shutdownK8sBranch, shutdownAwsBranch,
          kindCount, hD, hK, hA, hd, hk, ha]

lemma patchStep_dCompleted_le (a : AdapterOracle) (cfg : InfraConfig) :
    (patchStep a cfg).dCompleted ≤ kindCount cfg := by
  cases hD : cfg.isDocker <;> cases hK : cfg.isK8s <;> cases hA : cfg.isAws <;>
    cases hd : a Kind.docker cfg <;> cases hk : a Kind.k8s cfg <;>
      cases ha : a Kind.aws cfg <;>
        simp [patchStep, patchDockerBranch, patchK8sBranch, patchAwsBranch,
          kindCount, hD, hK, hA, hd, hk, ha]

lemma deployStep_events_all (a : AdapterOracle) (cfg : InfraConfig) :
    (deployStep a cfg).events.all isLoopEvent = true := by
  cases hD : cfg.isDocker <;> cases hK : cfg.isK8s <;> cases hA : cfg.isAws <;>
    cases hd : a Kind.docker cfg <;> cases hk : a Kind.k8s cfg <;>
      cases ha : a Kind.aws cfg <;>
        simp [deployStep, deployDockerBranch, deployK8sBranch, deployAwsBranch,
          isLoopEvent, hD, hK, hA, hd, hk, ha]

lemma shutdownStep_events_all (a : AdapterOracle) (cfg : InfraConfig) :
    (shutdownStep a cfg).events.all isLoopEvent = true := by
  cases hD : cfg.isDocker <;> cases hK : cfg.isK8s <;> cases hA : cfg.isAws <;>
    cases hd : a Kind.docker cfg <;> cases hk : a Kind.k8s cfg <;>
      cases ha : a Kind.aws cfg <;>
        simp [shutdownStep, shutdownDockerBranch, shutdownK8sBranch, shutdownAwsBranch,
          isLoopEvent, hD, hK, hA, hd, hk, ha]

lemma patchStep_events_all (a : AdapterOracle) (cfg : InfraConfig) :
    (patchStep a cfg).events.all isLoopEvent = true := by
  cases hD : cfg.isDocker <;> cases hK : cfg.isK8s <;> cases hA : cfg.isAws <;>
    cases hd : a Kind.docker cfg <;> cases hk : a Kind.k8s cfg <;>
      cases ha : a Kind.aws cfg <;>
        simp [patchStep, patchDockerBranch, patchK8sBranch, patchAwsBranch,
          isLoopEvent, hD, hK, hA, hd, hk, ha]

lemma shutdownStep_agree (a : AdapterOracle) (cfg : InfraConfig) :
    (shutdownStep a cfg).dCompleted = (deployStep a cfg).dCompleted
    ∧ (shutdownStep a cfg).raised = (deployStep a cfg).raised
    ∧ callSeq (shutdownStep a cfg).events = callSeq (deployStep a cfg).events := by
  cases hD : cfg.isDocker <;> cases hK : cfg.isK8s <;> cases hA : cfg.isAws <;>
    cases hd : a Kind.docker cfg <;> cases hk : a Kind.k8s cfg <;>
      cases ha : a Kind.aws cfg <;>
        simp [deployStep, deployDockerBranch, deployK8sBranch, deployAwsBranch,
          shutdownStep, shutdownDockerBranch, shutdownK8sBranch, shutdownAwsBranch,
          callSeq, fnKind, hD, hK, hA, hd, hk, ha]

lemma patchStep_agree (a : AdapterOracle) (cfg : InfraConfig) :
    (patchStep a cfg).dCompleted = (deployStep a cfg).dCompleted
    ∧ (patchStep a cfg).raised = (deployStep a cfg).raised
    ∧ callSeq (patchStep a cfg).events = callSeq (deployStep a cfg).events := by
  cases hD : cfg.isDocker <;> cases hK : cfg.isK8s <;> cases hA : cfg.isAws <;>
    cases hd : a Kind.docker cfg <;> cases hk : a Kind.k8s cfg <;>
      cases ha : a Kind.aws cfg <;>
        simp [deployStep, deployDockerBranch, deployK8sBranch, deployAwsBranch,
          patchStep, patchDockerBranch, patchK8sBranch, patchAwsBranch,
          callSeq, fnKind, hD, hK, hA, hd, hk, ha]

/-
  Lemmas about the dispatch loops.
-/

lemma deployLoop_events_all (a : AdapterOracle) (l : List InfraConfig) :
    (deployLoop a l).events.all isLoopEvent = true := by
  induction l with
  | nil => simp [deployLoop]
  | cons cfg rest ih =>
    simp only [deployLoop]
    split
    · exact deployStep_events_all a cfg
    · simpa [List.all_append] using And.intro (deployStep_events_all a cfg) ih

lemma shutdownLoop_events_all (a : AdapterOracle) (l : List InfraConfig) :
    (shutdownLoop a l).events.all isLoopEvent = true := by
  induction l with
  | nil => simp [shutdownLoop]
  | cons cfg rest ih =>
    simp only [shutdownLoop]
    split
    · exact shutdownStep_events_all a cfg
    · simpa [List.all_append] using And.intro (shutdownStep_events_all a cfg) ih

lemma patchLoop_events_all (a : AdapterOracle) (l : List InfraConfig) :
    (patchLoop a l).events.all isLoopEvent = true := by
  induction l with
  | nil => simp [patchLoop]
  | cons cfg rest ih =>
    simp only [patchLoop]
    split
    · exact patchStep_events_all a cfg
    · simpa [List.all_append] using And.intro (patchStep_events_all a cfg) ih

lemma not_mem_of_all_loopEvent {evs : List OutputEvent}
    (hall : evs.all isLoopEvent = true) {e : OutputEvent}
    (he : isLoopEvent e = false) : e ∉ evs := by
  intro hmem
  have := List.all_eq_true.mp hall e hmem
  simp [he] at this

lemma deployLoop_dCompleted_le (a : AdapterOracle) (l : List InfraConfig)
    (h : ∀ cfg ∈ l, kindCount cfg ≤ 1) :
    (deployLoop a l).dCompleted ≤ l.length := by
  induction l with
  | nil => simp [deployLoop]
  | cons cfg rest ih =>
    have h1 : (deployStep a cfg).dCompleted ≤ 1 :=
      le_trans (deployStep_dCompleted_le a cfg) (h cfg (by simp))
    have h2 := ih (fun c hc => h c (by simp [hc]))
    simp only [deployLoop]
    split
    · simpa using le_trans h1 (by omega)
    · simp only [List.length_cons]
      omega

lemma shutdownLoop_dCompleted_le (a : AdapterOracle) (l : List InfraConfig)
    (h : ∀ cfg ∈ l, kindCount cfg ≤ 1) :
    (shutdownLoop a l).dCompleted ≤ l.length := by
  induction l with
  | nil => simp [shutdownLoop]
  | cons cfg rest ih =>
    have h1 : (shutdownStep a cfg).dCompleted ≤ 1 :=
      le_trans (shutdownStep_dCompleted_le a cfg) (h cfg (by simp))
    have h2 := ih (fun c hc => h c (by simp [hc]))
    simp only [shutdownLoop]
    split
    · simpa using le_trans h1 (by omega)
    · simp only [List.length_cons]
      omega

lemma patchLoop_dCompleted_le (a : AdapterOracle) (l : List InfraConfig)
    (h : ∀ cfg ∈ l, kindCount cfg ≤ 1) :
    (patchLoop a l).dCompleted ≤ l.length := by
  induction l with
  | nil => simp [patchLoop]
  | cons cfg rest ih =>
    have h1 : (patchStep a cfg).dCompleted ≤ 1 :=
      le_trans (patchStep_dCompleted_le a cfg) (h cfg (by simp))
    have h2 := ih (fun c hc => h c (by simp [hc]))
    simp only [patchLoop]
    split
    · simpa using le_trans h1 (by omega)
    · simp only [List.length_cons]
      omega

lemma callSeq_append (xs ys : List OutputEvent) :
    callSeq (xs ++ ys) = callSeq xs ++ callSeq ys := by
  simp [callSeq, List.filterMap_append]

lemma shutdownLoop_agree (a : AdapterOracle) (l : List InfraConfig) :
    (shutdownLoop a l).dCompleted = (deployLoop a l).dCompleted
    ∧ (shutdownLoop a l).raised = (deployLoop a l).raised
    ∧ callSeq (shutdownLoop a l).events = callSeq (deployLoop a l).events := by
  induction l with
  | nil => simp [shutdownLoop, deployLoop, callSeq]
  | cons cfg rest ih =>
    obtain ⟨sc, sr, se⟩ := shutdownStep_agree a cfg
    obtain ⟨lc, lr, le⟩ := ih
    simp only [shutdownLoop, deployLoop]
    rw [sr]
    by_cases hr : (deployStep a cfg).raised
    · simp [hr, sc, sr, se]
    · simp [hr, sc, sr, lc, lr, callSeq_append, se, le]

lemma patchLoop_agree (a : AdapterOracle) (l : List InfraConfig) :
    (patchLoop a l).dCompleted = (deployLoop a l).dCompleted
    ∧ (patchLoop a l).raised = (deployLoop a l).raised
    ∧ callSeq (patchLoop a l).events = callSeq (deployLoop a l).events := by
  induction l with
  | nil => simp [patchLoop, deployLoop, callSeq]
  | cons cfg rest ih =>
    obtain ⟨sc, sr, se⟩ := patchStep_agree a cfg
    obtain ⟨lc, lr, le⟩ := ih
    simp only [patchLoop, deployLoop]
    rw [sr]
    by_cases hr : (deployStep a cfg).raised
    · simp [hr, sc, sr, se]
    · simp [hr, sc, sr, lc, lr, callSeq_append, se, le]

lemma deployLoop_append (a : AdapterOracle) (xs ys : List InfraConfig) :
    deployLoop a (xs ++ ys) =
      if (deployLoop a xs).raised then deployLoop a xs
      else ⟨(deployLoop a xs).dCompleted + (deployLoop a ys).dCompleted,
            (deployLoop a xs).events ++ (deployLoop a ys).events,
            (deployLoop a ys).raised⟩ := by
  induction xs with
  | nil => simp [deployLoop]
  | cons cfg rest ih =>
    simp only [List.cons_append, deployLoop]
    by_cases hr : (deployStep a cfg).raised
    · simp [hr]
    · simp only [hr, if_false, Bool.false_eq_true, List.append_eq]
      rw [ih]
      by_cases hrr : (deployLoop a rest).raised
      · simp [hrr]
      · simp [hrr, List.append_assoc]
        omega

/-
  Characterization lemmas for the three dispatch functions.
-/

lemma start_resources_missing (env : DispatchEnv) (a : AdapterOracle)
    (tf : TargetFilters) (dr ac : Option Bool) (hf : env.fileExists = false) :
    start_resources env a tf dr ac =
      ⟨(OutputEvent.printHeading ("Starting resources in: " ++ env.path)
          :: paramDebugEvents tf dr ac)
        ++ [OutputEvent.logError ("File does not exist: " ++ env.path)],
       false, none⟩ := by
  simp [start_resources, hf]

lemma start_resources_raised (env : DispatchEnv) (a : AdapterOracle)
    (tf : TargetFilters) (dr ac : Option Bool) (hf : env.fileExists = true)
    (hr : (deployLoop a (env.filterPrep "create")).raised = true) :
    start_resources env a tf dr ac =
      ⟨(OutputEvent.printHeading ("Starting resources in: " ++ env.path)
          :: paramDebugEvents tf dr ac)
        ++ [OutputEvent.loadWorkspaceConfig, OutputEvent.setLocalEnv]
        ++ (deployLoop a (env.filterPrep "create")).events,
       true, none⟩ := by
  simp [start_resources, hf, hr, List.append_assoc]

lemma start_resources_counters (env : DispatchEnv) (a : AdapterOracle)
    (tf : TargetFilters) (dr ac : Option Bool) (hf : env.fileExists = true)
    (hr : (deployLoop a (env.filterPrep "create")).raised = false) :
    (start_resources env a tf dr ac).counters =
      some ((env.filterPrep "create").length,
            (deployLoop a (env.filterPrep "create")).dCompleted) := by
  simp [start_resources, hf, hr]

lemma start_resources_counters_inv (env : DispatchEnv) (a : AdapterOracle)
    (tf : TargetFilters) (dr ac : Option Bool) (p : Nat × Nat)
    (h : (start_resources env a tf dr ac).counters = some p) :
    env.fileExists = true
    ∧ (deployLoop a (env.filterPrep "create")).raised = false
    ∧ p = ((env.filterPrep "create").length,
           (deployLoop a (env.filterPrep "create")).dCompleted) := by
  by_cases hf : env.fileExists
  · by_cases hr : (deployLoop a (env.filterPrep "create")).raised
    · simp [start_resources, hf, hr] at h
    · refine ⟨hf, by simpa using hr, ?_⟩
      rw [start_resources_counters env a tf dr ac hf (by simpa using hr)] at h
      exact (Option.some_inj.mp h).symm
  · simp [start_resources, eq_false_of_ne_true hf] at h

lemma start_resources_output_shape (env : DispatchEnv) (a : AdapterOracle)
    (tf : TargetFilters) (dr ac : Option Bool) (hf : env.fileExists = true)
    (hr : (deployLoop a (env.filterPrep "create")).raised = false) :
    (start_resources env a tf dr ac).output =
      (OutputEvent.printHeading ("Starting resources in: " ++ env.path)
          :: paramDebugEvents tf dr ac)
      ++ [OutputEvent.loadWorkspaceConfig, OutputEvent.setLocalEnv]
      ++ (deployLoop a (env.filterPrep "create")).events
      ++ [OutputEvent.printInfo ("# Configs deployed: "
            ++ toString (deployLoop a (env.filterPrep "create")).dCompleted ++ "/"
            ++ toString (env.filterPrep "create").length ++ "\n")]
      ++ reportTail "Workspace deploy success" "Workspace deploy failed"
          (env.filterPrep "create").length
          (deployLoop a (env.filterPrep "create")).dCompleted (truthy dr) := by
  by_cases hc : (env.filterPrep "create").length ==
      (deployLoop a (env.filterPrep "create")).dCompleted
  · by_cases hd : truthy dr
    · simp [start_resources, reportTail, hf, hr, hc, hd, List.append_assoc]
    · simp [start_resources, reportTail, hf, hr, hc,
        eq_false_of_ne_true hd, List.append_assoc]
  · simp [start_resources, reportTail, hf, hr,
      eq_false_of_ne_true hc, List.append_assoc]

lemma stop_resources_missing (env : DispatchEnv) (a : AdapterOracle)
    (tf : TargetFilters) (dr ac : Option Bool) (hf : env.fileExists = false) :
    stop_resources env a tf dr ac =
      ⟨(OutputEvent.printHeading ("Stopping resources in: " ++ env.path)
          :: paramDebugEvents tf dr ac)
        ++ [OutputEvent.logError ("File does not exist: " ++ env.path)],
       false, none⟩ := by
  simp [stop_resources, hf]

lemma stop_resources_raised (env : DispatchEnv) (a : AdapterOracle)
    (tf : TargetFilters) (dr ac : Option Bool) (hf : env.fileExists = true)
    (hr : (shutdownLoop a (env.filterPrep "create")).raised = true) :
    stop_resources env a tf dr ac =
      ⟨(OutputEvent.printHeading ("Stopping resources in: " ++ env.path)
          :: paramDebugEvents tf dr ac)
        ++ [OutputEvent.loadWorkspaceConfig, OutputEvent.setLocalEnv]
        ++ (shutdownLoop a (env.filterPrep "create")).events,
       true, none⟩ := by
  simp [stop_resources, hf, hr, List.append_assoc]

lemma stop_resources_counters (env : DispatchEnv) (a : AdapterOracle)
    (tf : TargetFilters) (dr ac : Option Bool) (hf : env.fileExists = true)
    (hr : (shutdownLoop a (env.filterPrep "create")).raised = false) :
    (stop_resources env a tf dr ac).counters =
      some ((env.filterPrep "create").length,
            (shutdownLoop a (env.filterPrep "create")).dCompleted) := by
  simp [stop_resources, hf, hr]

lemma stop_resources_counters_inv (env : DispatchEnv) (a : AdapterOracle)
    (tf : TargetFilters) (dr ac : Option Bool) (p : Nat × Nat)
    (h : (stop_resources env a tf dr ac).counters = some p) :
    env.fileExists = true
    ∧ (shutdownLoop a (env.filterPrep "create")).raised = false
    ∧ p = ((env.filterPrep "create").length,
           (shutdownLoop a (env.filterPrep "create")).dCompleted) := by
  by_cases hf : env.fileExists
  · by_cases hr : (shutdownLoop a (env.filterPrep "create")).raised
    · simp [stop_resources, hf, hr] at h
    · refine ⟨hf, by simpa using hr, ?_⟩
      rw [stop_resources_counters env a tf dr ac hf (by simpa using hr)] at h
      exact (Option.some_inj.mp h).symm
  · simp [stop_resources, eq_false_of_ne_true hf] at h

lemma stop_resources_output_shape (env : DispatchEnv) (a : AdapterOracle)
    (tf : TargetFilters) (dr ac : Option Bool) (hf : env.fileExists = true)
    (hr : (shutdownLoop a (env.filterPrep "create")).raised = false) :
    (stop_resources env a tf dr ac).output =
      (OutputEvent.printHeading ("Stopping resources in: " ++ env.path)
          :: paramDebugEvents tf dr ac)
      ++ [OutputEvent.loadWorkspaceConfig, OutputEvent.setLocalEnv]
      ++ (shutdownLoop a (env.filterPrep "create")).events
      ++ [OutputEvent.printInfo ("# Configs shutdown: "
            ++ toString (shutdownLoop a (env.filterPrep "create")).dCompleted ++ "/"
            ++ toString (env.filterPrep "create").length ++ "\n")]
      ++ reportTail "Workspace shutdown success" "Workspace shutdown failed"
          (env.filterPrep "create").length
          (shutdownLoop a (env.filterPrep "create")).dCompleted (truthy dr) := by
  by_cases hc : (env.filterPrep "create").length ==
      (shutdownLoop a (env.filterPrep "create")).dCompleted
  · by_cases hd : truthy dr
    · simp [stop_resources, reportTail, hf, hr, hc, hd, List.append_assoc]
    · simp [stop_resources, reportTail, hf, hr, hc,
        eq_false_of_ne_true hd, List.append_assoc]
  · simp [stop_resources, reportTail, hf, hr,
      eq_false_of_ne_true hc, List.append_assoc]

lemma patch_resources_missing (env : DispatchEnv) (a : AdapterOracle)
    (tf : TargetFilters) (dr ac : Option Bool) (hf : env.fileExists = false) :
    patch_resources env a tf dr ac =
      ⟨(OutputEvent.printHeading ("Updating resources in: " ++ env.path)
          :: paramDebugEvents tf dr ac)
        ++ [OutputEvent.logError ("File does not exist: " ++ env.path)],
       false, none⟩ := by
  simp [patch_resources, hf]

lemma patch_resources_raised (env : DispatchEnv) (a : AdapterOracle)
    (tf : TargetFilters) (dr ac : Option Bool) (hf : env.fileExists = true)
    (hr : (patchLoop a (env.filterPrep "create")).raised = true) :
    patch_resources env a tf dr ac =
      ⟨(OutputEvent.printHeading ("Updating resources in: " ++ env.path)
          :: paramDebugEvents tf dr ac)
        ++ [OutputEvent.loadWorkspaceConfig, OutputEvent.setLocalEnv]
        ++ (patchLoop a (env.filterPrep "create")).events,
       true, none⟩ := by
  simp [patch_resources, hf, hr, List.append_assoc]

lemma patch_resources_counters (env : DispatchEnv) (a : AdapterOracle)
    (tf : TargetFilters) (dr ac : Option Bool) (hf : env.fileExists = true)
    (hr : (patchLoop a (env.filterPrep "create")).raised = false) :
    (patch_resources env a tf dr ac).counters =
      some ((env.filterPrep "create").length,
            (patchLoop a (env.filterPrep "create")).dCompleted) := by
  simp [patch_resources, hf, hr]

lemma patch_resources_counters_inv (env : DispatchEnv) (a : AdapterOracle)
    (tf : TargetFilters) (dr ac : Option Bool) (p : Nat × Nat)
    (h : (patch_resources env a tf dr ac).counters = some p) :
    env.fileExists = true
    ∧ (patchLoop a (env.filterPrep "create")).raised = false
    ∧ p = ((env.filterPrep "create").length,
           (patchLoop a (env.filterPrep "create")).dCompleted) := by
  by_cases hf : env.fileExists
  · by_cases hr : (patchLoop a (env.filterPrep "create")).raised
    · simp [patch_resources, hf, hr] at h
    · refine ⟨hf, by simpa using hr, ?_⟩
      rw [patch_resources_counters env a tf dr ac hf (by simpa using hr)] at h
      exact (Option.some_inj.mp h).symm
  · simp [patch_resources, eq_false_of_ne_true hf] at h

lemma patch_resources_output_shape (env : DispatchEnv) (a : AdapterOracle)
    (tf : TargetFilters) (dr ac : Option Bool) (hf : env.fileExists = true)
    (hr : (patchLoop a (env.filterPrep "create")).raised = false) :
    (patch_resources env a tf dr ac).output =
      (OutputEvent.printHeading ("Updating resources in: " ++ env.path)
          :: paramDebugEvents tf dr ac)
      ++ [OutputEvent.loadWorkspaceConfig, OutputEvent.setLocalEnv]
      ++ (patchLoop a (env.filterPrep "create")).events
      ++ [OutputEvent.printInfo ("# Configs patched: "
            ++ toString (patchLoop a (env.filterPrep "create")).dCompleted ++ "/"
            ++ toString (env.filterPrep "create").length ++ "\n")]
      ++ reportTail "Workspace patch success" "Workspace patch failed"
          (env.filterPrep "create").length
          (patchLoop a (env.filterPrep "create")).dCompleted (truthy dr) := by
  by_cases hc : (env.filterPrep "create").length ==
      (patchLoop a (env.filterPrep "create")).dCompleted
  · by_cases hd : truthy dr
    · simp [patch_resources, reportTail, hf, hr, hc, hd, List.append_assoc]
    · simp [patch_resources, reportTail, hf, hr, hc,
        eq_false_of_ne_true hd, List.append_assoc]
  · simp [patch_resources, reportTail, hf, hr,
      eq_false_of_ne_true hc, List.append_assoc]

/-
  Membership helpers for the header block and the report tail.
-/

lemma mem_hdrBlock {e : OutputEvent} {s : String} {tf : TargetFilters}
    {dr ac : Option Bool}
    (h : e ∈ (OutputEvent.printHeading s :: paramDebugEvents tf dr ac)
      ++ [OutputEvent.loadWorkspaceConfig, OutputEvent.setLocalEnv]) :
    e = OutputEvent.printHeading s ∨ (∃ t, e = OutputEvent.logDebug t)
    ∨ e = OutputEvent.loadWorkspaceConfig ∨ e = OutputEvent.setLocalEnv := by
  simp [paramDebugEvents] at h
  rcases h with rfl | rfl | rfl | rfl | rfl | rfl | rfl | rfl | rfl | rfl <;> simp

lemma printSubheading_mem_reportTail {sb fm : String} {a c : Nat} {d : Bool} :
    OutputEvent.printSubheading sb ∈ reportTail sb fm a c d ↔ (a = c ∧ d = false) := by
  by_cases h : a = c
  · subst h
    cases d <;> simp [reportTail]
  · simp [reportTail, h, Nat.beq_eq_true_eq]

lemma logError_mem_reportTail {sb fm : String} {a c : Nat} {d : Bool} :
    OutputEvent.logError fm ∈ reportTail sb fm a c d ↔ a ≠ c := by
  by_cases h : a = c
  · subst h
    cases d <;> simp [reportTail]
  · simp [reportTail, h, Nat.beq_eq_true_eq]

lemma callSeq_reportTail (sb fm : String) (a c : Nat) (d : Bool) :
    callSeq (reportTail sb fm a c d) = [] := by
  unfold reportTail
  split
  · split <;> simp [callSeq]
  · simp [callSeq]

/-
  Claim theorems.
-/

/-- Claim C1, counterexample to the claim as stated: in a run over two
Docker configs where the adapter call on the first config raises, the
exception propagates out of the dispatch function (raised is true, so the
failure is not caught at the dispatcher boundary), the second config is
never dispatched, and no summary counters are produced, so the failure is
not recorded as completed less than attempted. -/
theorem c1_counterexample :
    (start_resources envPair aFail0 tf0 none none).raised = true
    ∧ (start_resources envPair aFail0 tf0 none none).counters = none
    ∧ OutputEvent.adapterCall "deploy_docker_config" cfgD1
        ∉ (start_resources envPair aFail0 tf0 none none).output := by
  decide

/-- Claim C1 (amended): when the backend adapter call for one config in the
filtered sequence raises, the exception propagates out of the dispatch
function instead of being caught: the run aborts, the configs after the
failing one are never dispatched (the output is exactly the header block
followed by the events of the configs before the failure and of the failing
iteration, independent of the rest of the sequence), and no summary
counters are produced. -/
theorem c1_failure_propagates (env : DispatchEnv) (a : AdapterOracle)
    (tf : TargetFilters) (dr ac : Option Bool)
    (pre : List InfraConfig) (c : InfraConfig) (post : List InfraConfig)
    (hsplit : env.filterPrep "create" = pre ++ c :: post)
    (hf : env.fileExists = true)
    (hpre : (deployLoop a pre).raised = false)
    (hc : (deployStep a c).raised = true) :
    (start_resources env a tf dr ac).raised = true
    ∧ (start_resources env a tf dr ac).counters = none
    ∧ (start_resources env a tf dr ac).output =
        (OutputEvent.printHeading ("Starting resources in: " ++ env.path)
            :: paramDebugEvents tf dr ac)
          ++ [OutputEvent.loadWorkspaceConfig, OutputEvent.setLocalEnv]
          ++ ((deployLoop a pre).events ++ (deployStep a c).events) := by
  have htail : deployLoop a (c :: post) = deployStep a c := by
    simp [deployLoop, hc]
  have hLoop : deployLoop a (env.filterPrep "create") =
      ⟨(deployLoop a pre).dCompleted + (deployStep a c).dCompleted,
       (deployLoop a pre).events ++ (deployStep a c).events, true⟩ := by
    rw [hsplit, deployLoop_append, htail]
    simp [hpre, hc]
  have hres := start_resources_raised env a tf dr ac hf (by rw [hLoop])
  rw [hres, hLoop]
  simp [List.append_assoc]

/-- Witness for the amended claim C1 at a concrete input: the filtered
sequence is the two Docker configs; the adapter raises on the first. -/
theorem c1_failure_propagates_witness :
    (start_resources envPair aFail0 tf0 none none).raised = true
    ∧ (start_resources envPair aFail0 tf0 none none).counters = none
    ∧ (start_resources envPair aFail0 tf0 none none).output =
        (OutputEvent.printHeading ("Starting resources in: " ++ envPair.path)
            :: paramDebugEvents tf0 none none)
          ++ [OutputEvent.loadWorkspaceConfig, OutputEvent.setLocalEnv]
          ++ ((deployLoop aFail0 []).events ++ (deployStep aFail0 cfgD0).events) :=
  c1_failure_propagates envPair aFail0 tf0 none none [] cfgD0 [cfgD1]
    (by decide) (by decide) (by decide) (by decide)

/-- Claim C2, counterexample to the claim as stated: a filtered sequence
holding one config that is an instance of both DockerConfig and K8sConfig
yields completed equal to 2 with attempted equal to 1, violating completed
at most attempted. -/
theorem c2_counterexample :
    (start_resources envDK aOk tf0 none none).counters = some (1, 2)
    ∧ ¬((2 : Nat) ≤ 1) := by
  decide

/-- Claim C2 (amended): for every lifecycle run (deploy, shutdown or patch)
that produces summary counters, provided every config of the filtered
sequence is an instance of at most one registered backend kind, the
counters satisfy completed at most attempted, attempted equals the length
of the filtered sequence, and the failure diagnostic is absent from the
output exactly when completed equals attempted. -/
theorem c2_counter_invariant (env : DispatchEnv) (a : AdapterOracle)
    (tf : TargetFilters) (dr ac : Option Bool)
    (hone : ∀ cfg ∈ env.filterPrep "create", kindCount cfg ≤ 1) :
    (∀ att comp, (start_resources env a tf dr ac).counters = some (att, comp) →
      comp ≤ att ∧ att = (env.filterPrep "create").length
      ∧ (OutputEvent.logError "Workspace deploy failed"
            ∉ (start_resources env a tf dr ac).output ↔ comp = att))
    ∧ (∀ att comp, (stop_resources env a tf dr ac).counters = some (att, comp) →
      comp ≤ att ∧ att = (env.filterPrep "create").length
      ∧ (OutputEvent.logError "Workspace shutdown failed"
            ∉ (stop_resources env a tf dr ac).output ↔ comp = att))
    ∧ (∀ att comp, (patch_resources env a tf dr ac).counters = some (att, comp) →
      comp ≤ att ∧ att = (env.filterPrep "create").length
      ∧ (OutputEvent.logError "Workspace patch failed"
            ∉ (patch_resources env a tf dr ac).output ↔ comp = att)) := by
  refine ⟨?_, ?_, ?_⟩
  · intro att comp h
    obtain ⟨hf, hr, hp⟩ := start_resources_counters_inv env a tf dr ac (att, comp) h
    rw [Prod.mk.injEq] at hp
    obtain ⟨rfl, rfl⟩ := hp
    refine ⟨deployLoop_dCompleted_le a _ hone, rfl, ?_⟩
    rw [start_resources_output_shape env a tf dr ac hf hr]
    have h2 : OutputEvent.logError "Workspace deploy failed"
        ∉ (deployLoop a (env.filterPrep "create")).events :=
      not_mem_of_all_loopEvent (deployLoop_events_all a _) rfl
    simp [paramDebugEvents, h2, logError_mem_reportTail]
    omega
  · intro att comp h
    obtain ⟨hf, hr, hp⟩ := stop_resources_counters_inv env a tf dr ac (att, comp) h
    rw [Prod.mk.injEq] at hp
    obtain ⟨rfl, rfl⟩ := hp
    refine ⟨shutdownLoop_dCompleted_le a _ hone, rfl, ?_⟩
    rw [stop_resources_output_shape env a tf dr ac hf hr]
    have h2 : OutputEvent.logError "Workspace shutdown failed"
        ∉ (shutdownLoop a (env.filterPrep "create")).events :=
      not_mem_of_all_loopEvent (shutdownLoop_events_all a _) rfl
    simp [paramDebugEvents, h2, logError_mem_reportTail]
    omega
  · intro att comp h
    obtain ⟨hf, hr, hp⟩ := patch_resources_counters_inv env a tf dr ac (att, comp) h
    rw [Prod.mk.injEq] at hp
    obtain ⟨rfl, rfl⟩ := hp
    refine ⟨patchLoop_dCompleted_le a _ hone, rfl, ?_⟩
    rw [patch_resources_output_shape env a tf dr ac hf hr]
    have h2 : OutputEvent.logError "Workspace patch failed"
        ∉ (patchLoop a (env.filterPrep "create")).events :=
      not_mem_of_all_loopEvent (patchLoop_events_all a _) rfl
    simp [paramDebugEvents, h2, logError_mem_reportTail]
    omega

/-- Witness for the amended claim C2 at a concrete input: the run over the
two single-kind Docker configs with an all-succeeding adapter. -/
theorem c2_counter_invariant_witness :
    (2 : Nat) ≤ 2 ∧ (2 : Nat) = (envPair.filterPrep "create").length
    ∧ (OutputEvent.logError "Workspace deploy failed"
          ∉ (start_resources envPair aOk tf0 none none).output ↔ (2 : Nat) = 2) :=
  (c2_counter_invariant envPair aOk tf0 none none (by decide)).1 2 2 (by decide)

/-- Claim C3: the code bug evaluated at a concrete input. stop_resources
passes the order argument create to the filter (operator.py line 293), so
for a workspace whose creation order is cfgD0 then cfgD1 the teardown run
dispatches in that same creation order, identical to start_resources,
whereas the spec-modelled filter yields the reverse for a teardown order
and that reverse differs from the creation order. -/
theorem c3_teardown_order_bug :
    callSeq (stop_resources envPair aOk tf0 none none).output
      = [(Kind.docker, cfgD0), (Kind.docker, cfgD1)]
    ∧ callSeq (start_resources envPair aOk tf0 none none).output
      = [(Kind.docker, cfgD0), (Kind.docker, cfgD1)]
    ∧ specFilterPrep [cfgD0, cfgD1] "delete" = [cfgD1, cfgD0]
    ∧ ([(Kind.docker, cfgD0), (Kind.docker, cfgD1)] : List (Kind × InfraConfig)).reverse
      ≠ [(Kind.docker, cfgD0), (Kind.docker, cfgD1)] := by
  decide

/-- Claim C4: a config of the filtered sequence matching none of the
registered backend kinds is silently skipped by all three operations: the
iteration emits only the debug line and the blank separator (no error, no
adapter invocation), raises nothing, contributes nothing to completed, and
the loop proceeds to the remaining configs; as the only element of the
filtered sequence it is counted in attempted (counters are 1 attempted,
0 completed) for deploy, shutdown and patch alike. -/
theorem c4_unregistered_kind_skipped (a : AdapterOracle) (cfg : InfraConfig)
    (hD : cfg.isDocker = false) (hK : cfg.isK8s = false) (hA : cfg.isAws = false) :
    deployStep a cfg = ⟨0, [OutputEvent.logDebug ("Deploying " ++ cfg.className),
        OutputEvent.printInfo ""], false⟩
    ∧ shutdownStep a cfg = ⟨0, [OutputEvent.logDebug ("Deploying " ++ cfg.className),
        OutputEvent.printInfo ""], false⟩
    ∧ patchStep a cfg = ⟨0, [OutputEvent.logDebug ("Deploying " ++ cfg.className),
        OutputEvent.printInfo ""], false⟩
    ∧ (∀ rest, deployLoop a (cfg :: rest) =
        ⟨(deployLoop a rest).dCompleted,
         [OutputEvent.logDebug ("Deploying " ++ cfg.className),
          OutputEvent.printInfo ""] ++ (deployLoop a rest).events,
         (deployLoop a rest).raised⟩)
    ∧ (∀ env tf dr ac, env.fileExists = true → env.filterPrep "create" = [cfg] →
        (start_resources env a tf dr ac).counters = some (1, 0)
        ∧ (stop_resources env a tf dr ac).counters = some (1, 0)
        ∧ (patch_resources env a tf dr ac).counters = some (1, 0)) := by
  have hstep : deployStep a cfg = ⟨0, [OutputEvent.logDebug ("Deploying " ++ cfg.className),
      OutputEvent.printInfo ""], false⟩ := by
    simp [deployStep, deployDockerBranch, deployK8sBranch, deployAwsBranch, hD, hK, hA]
  have hstepS : shutdownStep a cfg = ⟨0, [OutputEvent.logDebug ("Deploying " ++ cfg.className),
      OutputEvent.printInfo ""], false⟩ := by
    simp [shutdownStep, shutdownDockerBranch, shutdownK8sBranch, shutdownAwsBranch, hD, hK, hA]
  have hstepP : patchStep a cfg = ⟨0, [OutputEvent.logDebug ("Deploying " ++ cfg.className),
      OutputEvent.printInfo ""], false⟩ := by
    simp [patchStep, patchDockerBranch, patchK8sBranch, patchAwsBranch, hD, hK, hA]
  refine ⟨hstep, hstepS, hstepP, ?_, ?_⟩
  · intro rest
    simp [deployLoop, hstep]
  · intro env tf dr ac hf he
    have hd : deployLoop a (env.filterPrep "create") = ⟨0,
        [OutputEvent.logDebug ("Deploying " ++ cfg.className),
         OutputEvent.printInfo ""], false⟩ := by
      rw [he]
      simp [deployLoop, hstep]
    have hs : shutdownLoop a (env.filterPrep "create") = ⟨0,
        [OutputEvent.logDebug ("Deploying " ++ cfg.className),
         OutputEvent.printInfo ""], false⟩ := by
      rw [he]
      simp [shutdownLoop, hstepS]
    have hp : patchLoop a (env.filterPrep "create") = ⟨0,
        [OutputEvent.logDebug ("Deploying " ++ cfg.className),
         OutputEvent.printInfo ""], false⟩ := by
      rw [he]
      simp [patchLoop, hstepP]
    refine ⟨?_, ?_, ?_⟩
    · rw [start_resources_counters env a tf dr ac hf (by rw [hd]), hd, he]
      rfl
    · rw [stop_resources_counters env a tf dr ac hf (by rw [hs]), hs, he]
      rfl
    · rw [patch_resources_counters env a tf dr ac hf (by rw [hp]), hp, he]
      rfl

/-- Witness for claim C4 at a concrete input: the unregistered GcpConfig as
the single filtered config, under an all-succeeding adapter. -/
theorem c4_unregistered_kind_skipped_witness :
    (start_resources envU aOk tf0 none none).counters = some (1, 0)
    ∧ (stop_resources envU aOk tf0 none none).counters = some (1, 0)
    ∧ (patch_resources envU aOk tf0 none none).counters = some (1, 0) :=
  (c4_unregistered_kind_skipped aOk cfgU rfl rfl rfl).2.2.2.2
    envU tf0 none none rfl (by decide)

/-- Claim C5: for every lifecycle run that produces summary counters, the
success banner is printed iff completed equals attempted and the dry_run
argument is not truthy, and the failure error is reported iff completed
differs from attempted; in particular a dry run never prints the success
banner even when the counts match. Stated for deploy, shutdown and patch
with their respective banner texts. -/
theorem c5_success_banner_iff (env : DispatchEnv) (a : AdapterOracle)
    (tf : TargetFilters) (dr ac : Option Bool) :
    (∀ att comp, (start_resources env a tf dr ac).counters = some (att, comp) →
      (OutputEvent.printSubheading "Workspace deploy success"
          ∈ (start_resources env a tf dr ac).output ↔ (comp = att ∧ truthy dr = false))
      ∧ (OutputEvent.logError "Workspace deploy failed"
          ∈ (start_resources env a tf dr ac).output ↔ comp ≠ att))
    ∧ (∀ att comp, (stop_resources env a tf dr ac).counters = some (att, comp) →
      (OutputEvent.printSubheading "Workspace shutdown success"
          ∈ (stop_resources env a tf dr ac).output ↔ (comp = att ∧ truthy dr = false))
      ∧ (OutputEvent.logError "Workspace shutdown failed"
          ∈ (stop_resources env a tf dr ac).output ↔ comp ≠ att))
    ∧ (∀ att comp, (patch_resources env a tf dr ac).counters = some (att, comp) →
      (OutputEvent.printSubheading "Workspace patch success"
          ∈ (patch_resources env a tf dr ac).output ↔ (comp = att ∧ truthy dr = false))
      ∧ (OutputEvent.logError "Workspace patch failed"
          ∈ (patch_resources env a tf dr ac).output ↔ comp ≠ att)) := by
  refine ⟨?_, ?_, ?_⟩
  · intro att comp h
    obtain ⟨hf, hr, hp⟩ := start_resources_counters_inv env a tf dr ac (att, comp) h
    rw [Prod.mk.injEq] at hp
    obtain ⟨rfl, rfl⟩ := hp
    have h2 : ∀ e : OutputEvent, isLoopEvent e = false →
        e ∉ (deployLoop a (env.filterPrep "create")).events :=
      fun e he => not_mem_of_all_loopEvent (deployLoop_events_all a _) he
    rw [start_resources_output_shape env a tf dr ac hf hr]
    constructor
    · simp [paramDebugEvents,
        h2 (OutputEvent.printSubheading "Workspace deploy success") rfl,
        printSubheading_mem_reportTail]
      omega
    · simp [paramDebugEvents,
        h2 (OutputEvent.logError "Workspace deploy failed") rfl,
        logError_mem_reportTail]
      omega
  · intro att comp h
    obtain ⟨hf, hr, hp⟩ := stop_resources_counters_inv env a tf dr ac (att, comp) h
    rw [Prod.mk.injEq] at hp
    obtain ⟨rfl, rfl⟩ := hp
    have h2 : ∀ e : OutputEvent, isLoopEvent e = false →
        e ∉ (shutdownLoop a (env.filterPrep "create")).events :=
      fun e he => not_mem_of_all_loopEvent (shutdownLoop_events_all a _) he
    rw [stop_resources_output_shape env a tf dr ac hf hr]
    constructor
    · simp [paramDebugEvents,
        h2 (OutputEvent.printSubheading "Workspace shutdown success") rfl,
        printSubheading_mem_reportTail]
      omega
    · simp [paramDebugEvents,
        h2 (OutputEvent.logError "Workspace shutdown failed") rfl,
        logError_mem_reportTail]
      omega
  · intro att comp h
    obtain ⟨hf, hr, hp⟩ := patch_resources_counters_inv env a tf dr ac (att, comp) h
    rw [Prod.mk.injEq] at hp
    obtain ⟨rfl, rfl⟩ := hp
    have h2 : ∀ e : OutputEvent, isLoopEvent e = false →
        e ∉ (patchLoop a (env.filterPrep "create")).events :=
      fun e he => not_mem_of_all_loopEvent (patchLoop_events_all a _) he
    rw [patch_resources_output_shape env a tf dr ac hf hr]
    constructor
    · simp [paramDebugEvents,
        h2 (OutputEvent.printSubheading "Workspace patch success") rfl,
        printSubheading_mem_reportTail]
      omega
    · simp [paramDebugEvents,
        h2 (OutputEvent.logError "Workspace patch failed") rfl,
        logError_mem_reportTail]
      omega

/-- Witness for claim C5 at a concrete input: a non-dry empty run prints
the deploy success banner. -/
theorem c5_success_banner_iff_witness :
    OutputEvent.printSubheading "Workspace deploy success"
      ∈ (start_resources envEmpty aOk tf0 (some false) none).output :=
  (((c5_success_banner_iff envEmpty aOk tf0 (some false) none).1 0 0
      (by decide)).1).mpr ⟨rfl, rfl⟩

/-- Claim C6: when the filter produces an empty config sequence, each of
the three lifecycle runs is a valid no-op: counters are 0 attempted and
0 completed, no exception propagates, no adapter is invoked, and no
failure error is reported. -/
theorem c6_empty_sequence_noop (env : DispatchEnv) (a : AdapterOracle)
    (tf : TargetFilters) (dr ac : Option Bool)
    (hf : env.fileExists = true) (he : env.filterPrep "create" = []) :
    ((start_resources env a tf dr ac).counters = some (0, 0)
      ∧ (start_resources env a tf dr ac).raised = false
      ∧ (∀ fn c, OutputEvent.adapterCall fn c ∉ (start_resources env a tf dr ac).output)
      ∧ OutputEvent.logError "Workspace deploy failed"
          ∉ (start_resources env a tf dr ac).output)
    ∧ ((stop_resources env a tf dr ac).counters = some (0, 0)
      ∧ (stop_resources env a tf dr ac).raised = false
      ∧ (∀ fn c, OutputEvent.adapterCall fn c ∉ (stop_resources env a tf dr ac).output)
      ∧ OutputEvent.logError "Workspace shutdown failed"
          ∉ (stop_resources env a tf dr ac).output)
    ∧ ((patch_resources env a tf dr ac).counters = some (0, 0)
      ∧ (patch_resources env a tf dr ac).raised = false
      ∧ (∀ fn c, OutputEvent.adapterCall fn c ∉ (patch_resources env a tf dr ac).output)
      ∧ OutputEvent.logError "Workspace patch failed"
          ∉ (patch_resources env a tf dr ac).output) := by
  refine ⟨?_, ?_, ?_⟩
  · have hr : (deployLoop a (env.filterPrep "create")).raised = false := by
      rw [he]
      simp [deployLoop]
    refine ⟨?_, ?_, ?_, ?_⟩
    · rw [start_resources_counters env a tf dr ac hf hr, he]
      simp [deployLoop]
    · simp [start_resources, hf, hr]
    · intro fn c
      rw [start_resources_output_shape env a tf dr ac hf hr, he]
      by_cases hd : truthy dr <;>
        simp [deployLoop, paramDebugEvents, reportTail, hd]
    · rw [start_resources_output_shape env a tf dr ac hf hr, he]
      by_cases hd : truthy dr <;>
        simp [deployLoop, paramDebugEvents, reportTail, hd]
  · have hr : (shutdownLoop a (env.filterPrep "create")).raised = false := by
      rw [he]
      simp [shutdownLoop]
    refine ⟨?_, ?_, ?_, ?_⟩
    · rw [stop_resources_counters env a tf dr ac hf hr, he]
      simp [shutdownLoop]
    · simp [stop_resources, hf, hr]
    · intro fn c
      rw [stop_resources_output_shape env a tf dr ac hf hr, he]
      by_cases hd : truthy dr <;>
        simp [shutdownLoop, paramDebugEvents, reportTail, hd]
    · rw [stop_resources_output_shape env a tf dr ac hf hr, he]
      by_cases hd : truthy dr <;>
        simp [shutdownLoop, paramDebugEvents, reportTail, hd]
  · have hr : (patchLoop a (env.filterPrep "create")).raised = false := by
      rw [he]
      simp [patchLoop]
    refine ⟨?_, ?_, ?_, ?_⟩
    · rw [patch_resources_counters env a tf dr ac hf hr, he]
      simp [patchLoop]
    · simp [patch_resources, hf, hr]
    · intro fn c
      rw [patch_resources_output_shape env a tf dr ac hf hr, he]
      by_cases hd : truthy dr <;>
        simp [patchLoop, paramDebugEvents, reportTail, hd]
    · rw [patch_resources_output_shape env a tf dr ac hf hr, he]
      by_cases hd : truthy dr <;>
        simp [patchLoop, paramDebugEvents, reportTail, hd]

/-- Witness for claim C6 at a concrete input: the environment whose
filtered sequence is empty. -/
theorem c6_empty_sequence_noop_witness :
    (start_resources envEmpty aOk tf0 none none).counters = some (0, 0)
    ∧ (stop_resources envEmpty aOk tf0 none none).counters = some (0, 0)
    ∧ (patch_resources envEmpty aOk tf0 none none).counters = some (0, 0) :=
  have h := c6_empty_sequence_noop envEmpty aOk tf0 none none rfl rfl
  ⟨h.1.1, h.2.1.1, h.2.2.1⟩

/-- Claim C7: when the resources file does not exist, each of the three
dispatch functions prints its heading and parameter debug lines, reports
the user-facing missing-file error, and returns: the full output is
exactly that, no workspace config is loaded, no local environment is set,
no adapter is invoked, no exception propagates and no summary counters are
produced. -/
theorem c7_missing_file_aborts (env : DispatchEnv) (a : AdapterOracle)
    (tf : TargetFilters) (dr ac : Option Bool) (hf : env.fileExists = false) :
    (start_resources env a tf dr ac =
        ⟨(OutputEvent.printHeading ("Starting resources in: " ++ env.path)
            :: paramDebugEvents tf dr ac)
          ++ [OutputEvent.logError ("File does not exist: " ++ env.path)],
         false, none⟩
      ∧ OutputEvent.loadWorkspaceConfig ∉ (start_resources env a tf dr ac).output
      ∧ OutputEvent.setLocalEnv ∉ (start_resources env a tf dr ac).output
      ∧ (∀ fn c, OutputEvent.adapterCall fn c ∉ (start_resources env a tf dr ac).output))
    ∧ (stop_resources env a tf dr ac =
        ⟨(OutputEvent.printHeading ("Stopping resources in: " ++ env.path)
            :: paramDebugEvents tf dr ac)
          ++ [OutputEvent.logError ("File does not exist: " ++ env.path)],
         false, none⟩
      ∧ OutputEvent.loadWorkspaceConfig ∉ (stop_resources env a tf dr ac).output
      ∧ OutputEvent.setLocalEnv ∉ (stop_resources env a tf dr ac).output
      ∧ (∀ fn c, OutputEvent.adapterCall fn c ∉ (stop_resources env a tf dr ac).output))
    ∧ (patch_resources env a tf dr ac =
        ⟨(OutputEvent.printHeading ("Updating resources in: " ++ env.path)
            :: paramDebugEvents tf dr ac)
          ++ [OutputEvent.logError ("File does not exist: " ++ env.path)],
         false, none⟩
      ∧ OutputEvent.loadWorkspaceConfig ∉ (patch_resources env a tf dr ac).output
      ∧ OutputEvent.setLocalEnv ∉ (patch_resources env a tf dr ac).output
      ∧ (∀ fn c, OutputEvent.adapterCall fn c ∉ (patch_resources env a tf dr ac).output)) := by
  refine ⟨⟨start_resources_missing env a tf dr ac hf, ?_, ?_, ?_⟩,
    ⟨stop_resources_missing env a tf dr ac hf, ?_, ?_, ?_⟩,
    ⟨patch_resources_missing env a tf dr ac hf, ?_, ?_, ?_⟩⟩ <;>
    first
      | (rw [start_resources_missing env a tf dr ac hf]
         simp [paramDebugEvents])
      | (rw [stop_resources_missing env a tf dr ac hf]
         simp [paramDebugEvents])
      | (rw [patch_resources_missing env a tf dr ac hf]
         simp [paramDebugEvents])

/-- Witness for claim C7 at a concrete input: the environment whose
resources file is missing. -/
theorem c7_missing_file_aborts_witness :
    start_resources envMissing aOk tf0 none none =
      ⟨(OutputEvent.printHeading ("Starting resources in: " ++ envMissing.path)
          :: paramDebugEvents tf0 none none)
        ++ [OutputEvent.logError ("File does not exist: " ++ envMissing.path)],
       false, none⟩ :=
  (c7_missing_file_aborts envMissing aOk tf0 none none rfl).1.1

lemma callSeq_paramDebugEvents (tf : TargetFilters) (dr ac : Option Bool) :
    callSeq (paramDebugEvents tf dr ac) = [] := by
  simp [callSeq, paramDebugEvents]

lemma callSeq_cons_printHeading (s : String) (l : List OutputEvent) :
    callSeq (OutputEvent.printHeading s :: l) = callSeq l := by
  simp [callSeq]

lemma callSeq_cons_loadWorkspaceConfig (l : List OutputEvent) :
    callSeq (OutputEvent.loadWorkspaceConfig :: l) = callSeq l := by
  simp [callSeq]

lemma callSeq_cons_setLocalEnv (l : List OutputEvent) :
    callSeq (OutputEvent.setLocalEnv :: l) = callSeq l := by
  simp [callSeq]

lemma callSeq_cons_printInfo (s : String) (l : List OutputEvent) :
    callSeq (OutputEvent.printInfo s :: l) = callSeq l := by
  simp [callSeq]

lemma callSeq_cons_logError (s : String) (l : List OutputEvent) :
    callSeq (OutputEvent.logError s :: l) = callSeq l := by
  simp [callSeq]

lemma callSeq_nil : callSeq [] = [] := by
  simp [callSeq]

/-- Claim C8: the three dispatch functions are behaviourally identical up
to the lifecycle verb: over the same environment, the same filters and
mode, and the same per-config adapter outcomes, start_resources,
stop_resources and patch_resources produce the same summary counters, the
same exception behaviour, and the same sequence of backend adapter
invocations (same backend kinds, same configs, same order). -/
theorem c8_triplicated_dispatch_equivalent (env : DispatchEnv)
    (a : AdapterOracle) (tf : TargetFilters) (dr ac : Option Bool) :
    (stop_resources env a tf dr ac).counters = (start_resources env a tf dr ac).counters
    ∧ (patch_resources env a tf dr ac).counters = (start_resources env a tf dr ac).counters
    ∧ (stop_resources env a tf dr ac).raised = (start_resources env a tf dr ac).raised
    ∧ (patch_resources env a tf dr ac).raised = (start_resources env a tf dr ac).raised
    ∧ callSeq (stop_resources env a tf dr ac).output
        = callSeq (start_resources env a tf dr ac).output
    ∧ callSeq (patch_resources env a tf dr ac).output
        = callSeq (start_resources env a tf dr ac).output := by
  obtain ⟨sc, sr, se⟩ := shutdownLoop_agree a (env.filterPrep "create")
  obtain ⟨pc, pr, pe⟩ := patchLoop_agree a (env.filterPrep "create")
  by_cases hf : env.fileExists
  · by_cases hr : (deployLoop a (env.filterPrep "create")).raised
    · rw [start_resources_raised env a tf dr ac hf hr,
        stop_resources_raised env a tf dr ac hf (by rw [sr, hr]),
        patch_resources_raised env a tf dr ac hf (by rw [pr, hr])]
      simp [callSeq_cons_printHeading, callSeq_append, callSeq_paramDebugEvents,
        callSeq_cons_loadWorkspaceConfig, callSeq_cons_setLocalEnv,
        callSeq_cons_printInfo, callSeq_cons_logError, callSeq_reportTail, callSeq_nil, se, pe]
    · have hr' : (deployLoop a (env.filterPrep "create")).raised = false := by
        simpa using hr
      have hstart := start_resources_output_shape env a tf dr ac hf hr'
      have hstop := stop_resources_output_shape env a tf dr ac hf (by rw [sr, hr'])
      have hpatch := patch_resources_output_shape env a tf dr ac hf (by rw [pr, hr'])
      refine ⟨?_, ?_, ?_, ?_, ?_, ?_⟩
      · rw [stop_resources_counters env a tf dr ac hf (by rw [sr, hr']),
          start_resources_counters env a tf dr ac hf hr', sc]
      · rw [patch_resources_counters env a tf dr ac hf (by rw [pr, hr']),
          start_resources_counters env a tf dr ac hf hr', pc]
      · simp [start_resources, stop_resources, hf, hr', sr]
      · simp [start_resources, patch_resources, hf, hr', pr]
      · rw [hstart, hstop]
        simp [callSeq_cons_printHeading, callSeq_append, callSeq_paramDebugEvents,
        callSeq_cons_loadWorkspaceConfig, callSeq_cons_setLocalEnv,
        callSeq_cons_printInfo, callSeq_cons_logError, callSeq_reportTail, callSeq_nil, se]
      · rw [hstart, hpatch]
        simp [callSeq_cons_printHeading, callSeq_append, callSeq_paramDebugEvents,
        callSeq_cons_loadWorkspaceConfig, callSeq_cons_setLocalEnv,
        callSeq_cons_printInfo, callSeq_cons_logError, callSeq_reportTail, callSeq_nil, pe]
  · have hf' : env.fileExists = false := by simpa using hf
    rw [start_resources_missing env a tf dr ac hf',
      stop_resources_missing env a tf dr ac hf',
      patch_resources_missing env a tf dr ac hf']
    simp [callSeq_cons_printHeading, callSeq_append, callSeq_paramDebugEvents,
        callSeq_cons_loadWorkspaceConfig, callSeq_cons_setLocalEnv,
        callSeq_cons_printInfo, callSeq_cons_logError, callSeq_reportTail, callSeq_nil]

/-- Claim C9: log_conversation_event returns None without issuing any HTTP
request when the API is disabled, and returns None without raising when
the post raises, the response is invalid, the JSON body is missing or
unparseable, or validation fails; a validated response is returned only
when every step succeeds. -/
theorem c9_side_channel_never_blocks (api_enabled : Bool) (api : ConversationApi) :
    (api_enabled = false →
      log_conversation_event api_enabled api = ⟨false, none⟩)
    ∧ (api.post = PostOutcome.raise →
      (log_conversation_event api_enabled api).result = none)
    ∧ (∀ r, api.post = PostOutcome.ok r → r.invalid = true →
      (log_conversation_event api_enabled api).result = none)
    ∧ (∀ r, api.post = PostOutcome.ok r → r.jsonOutcome = JsonParse.raise →
      (log_conversation_event api_enabled api).result = none)
    ∧ (∀ r, api.post = PostOutcome.ok r → r.jsonOutcome = JsonParse.null →
      (log_conversation_event api_enabled api).result = none)
    ∧ (∀ r j, api.post = PostOutcome.ok r → r.jsonOutcome = JsonParse.value j →
      api.validate j = ValidateOutcome.raise →
      (log_conversation_event api_enabled api).result = none) := by
  refine ⟨?_, ?_, ?_, ?_, ?_, ?_⟩
  · intro h
    simp [log_conversation_event, h]
  · intro h
    cases api_enabled <;> simp [log_conversation_event, h]
  · intro r hpost hinv
    cases api_enabled <;> simp [log_conversation_event, hpost, hinv]
  · intro r hpost hjson
    cases api_enabled <;> cases hinv : r.invalid <;>
      simp [log_conversation_event, hpost, hjson, hinv]
  · intro r hpost hjson
    cases api_enabled <;> cases hinv : r.invalid <;>
      simp [log_conversation_event, hpost, hjson, hinv]
  · intro r j hpost hjson hval
    cases api_enabled <;> cases hinv : r.invalid <;>
      simp [log_conversation_event, hpost, hjson, hval, hinv]

/-- Witness for claim C9 at concrete inputs: with the API disabled no
request is issued and None is returned; with the API enabled and the post
raising, None is returned. -/
theorem c9_side_channel_never_blocks_witness :
    log_conversation_event false apiAllOk = ⟨false, none⟩
    ∧ (log_conversation_event true apiPostRaise).result = none :=
  ⟨(c9_side_channel_never_blocks false apiAllOk).1 rfl,
   (c9_side_channel_never_blocks true apiPostRaise).2.1 rfl⟩

/-- Claim C10: the backend-kind tests of the dispatch loop are independent,
so a config that is an instance of both DockerConfig and K8sConfig is
dispatched to both adapters in a single iteration and increments the
completed counter twice: the iteration emits both adapter calls in source
order and contributes 2 to completed, and a run whose filtered sequence is
just that config reports 1 attempted and 2 completed. -/
theorem c10_multi_kind_double_dispatch (a : AdapterOracle) (cfg : InfraConfig)
    (hD : cfg.isDocker = true) (hK : cfg.isK8s = true) (hA : cfg.isAws = false)
    (sd : a Kind.docker cfg = true) (sk : a Kind.k8s cfg = true) :
    deployStep a cfg =
      ⟨2, [OutputEvent.logDebug ("Deploying " ++ cfg.className),
           OutputEvent.adapterCall "deploy_docker_config" cfg,
           OutputEvent.adapterCall "deploy_k8s_config" cfg,
           OutputEvent.printInfo ""], false⟩
    ∧ (∀ env tf dr ac, env.fileExists = true → env.filterPrep "create" = [cfg] →
        (start_resources env a tf dr ac).counters = some (1, 2)) := by
  have hstep : deployStep a cfg =
      ⟨2, [OutputEvent.logDebug ("Deploying " ++ cfg.className),
           OutputEvent.adapterCall "deploy_docker_config" cfg,
           OutputEvent.adapterCall "deploy_k8s_config" cfg,
           OutputEvent.printInfo ""], false⟩ := by
    simp [deployStep, deployDockerBranch, deployK8sBranch, deployAwsBranch,
      hD, hK, hA, sd, sk]
  refine ⟨hstep, ?_⟩
  intro env tf dr ac hf he
  have hd : deployLoop a (env.filterPrep "create") =
      ⟨2, [OutputEvent.logDebug ("Deploying " ++ cfg.className),
           OutputEvent.adapterCall "deploy_docker_config" cfg,
           OutputEvent.adapterCall "deploy_k8s_config" cfg,
           OutputEvent.printInfo ""], false⟩ := by
    rw [he]
    simp [deployLoop, hstep]
  rw [start_resources_counters env a tf dr ac hf (by rw [hd]), hd, he]
  rfl

/-- Witness for claim C10 at a concrete input: the config that is both a
DockerConfig and a K8sConfig, as the single filtered config. -/
theorem c10_multi_kind_double_dispatch_witness :
    (start_resources envDK aOk tf0 none none).counters = some (1, 2) :=
  (c10_multi_kind_double_dispatch aOk cfgDK rfl rfl rfl rfl rfl).2
    envDK tf0 none none rfl rfl

end Phidata
